import Mathlib

/-!
Shallow embedding of the access-control core of the flaskr blog application
(`flaskr/auth.py` and `flaskr/blog.py`): session identity, registration and
login, post ownership checks, profile editing, nickname availability, and the
per-user avatar file lifecycle (upload / crop / reset).

The relational store is modelled as an in-memory list of rows, the avatar
directory as an association list from filenames to images, and the session as
`Option Nat` (at most one stored `user_id`).  External collaborators (the
password hasher, the werkzeug filename sanitizer, the image codec) are
modelled at their interface boundary: the hasher is an explicit function
parameter, images are a free datatype of the operations the code performs on
them, and encoding/saving is treated as total.
-/

set_option autoImplicit false

/-- Python `str.strip()`: drop leading and trailing whitespace.  Defined by
structural recursion over the character list so concrete instances reduce in
the kernel. -/
def pyStrip (s : String) : String :=
  String.mk (((s.data.dropWhile Char.isWhitespace).reverse.dropWhile
      Char.isWhitespace).reverse)

/-- Python `str.lower()`: lowercase every character. -/
def pyLower (s : String) : String :=
  String.mk (s.data.map Char.toLower)

/-- A row of the `users` table: `users(user_id PK, username, password, bio, contact_info)`. -/
structure User where
  user_id : Nat
  username : String
  password : String
  bio : String
  contact_info : String
deriving Repr, DecidableEq

/-- A row of the `user_works` table: `(id PK, title, body, author_id FK, created)`. -/
structure Post where
  id : Nat
  title : String
  body : String
  author_id : Nat
  created : Nat
deriving Repr, DecidableEq

/-- Outcome of `get_post` and of the handlers built on it: HTTP 404, HTTP 403,
or the fetched row. -/
inductive PostResult where
  | notFound
  | forbidden
  | ok (post : Post)
deriving Repr, DecidableEq

/-- `blog.get_post(id, check_author)`: fetch the post row by id; abort 404 when
no row matches; abort 403 when `check_author` and the current user is not the
author; otherwise return the row.  `g_user_id` is the resolved identity
(`g.user["user_id"]`). -/
def get_post (posts : List Post) (id : Nat) (g_user_id : Nat) (check_author : Bool) :
    PostResult :=
  match posts.find? (fun p => p.id == id) with
  | none => .notFound
  | some post =>
      if check_author && post.author_id != g_user_id then .forbidden else .ok post

/-- `blog.update` (POST path): `get_post(id)` with the default
`check_author=True`; on success, an empty title flashes an error and changes
nothing, otherwise title and body are updated in place. -/
def update_post (posts : List Post) (id : Nat) (g_user_id : Nat)
    (title body : String) : List Post × PostResult :=
  match get_post posts id g_user_id true with
  | .ok post =>
      if title = "" then (posts, .ok post)
      else ((posts.map fun q =>
              if q.id == id then ⟨q.id, title, body, q.author_id, q.created⟩ else q),
            .ok post)
  | r => (posts, r)

/-- `blog.delete`: `get_post(id)` with the default `check_author=True`; on
success the row is deleted. -/
def delete_post (posts : List Post) (id : Nat) (g_user_id : Nat) :
    List Post × PostResult :=
  match get_post posts id g_user_id true with
  | .ok post => (posts.filter (fun q => q.id != id), .ok post)
  | r => (posts, r)

/-- Demo post table used by concrete witnesses. -/
def demo_posts : List Post := [⟨1, "Hi", "there", 10, 0⟩]

/-- `auth.load_logged_in_user`: resolve the session to a user row, or to
anonymous (`none`) when no `user_id` is stored or the row is gone. -/
def load_logged_in_user (users : List User) (sess : Option Nat) : Option User :=
  match sess with
  | none => none
  | some user_id => users.find? (fun u => u.user_id == user_id)

/-- `auth.login` (POST path): look the username up; an unknown username flashes
"Incorrect username.", a failed hash check flashes "Incorrect password.";
only on success is the session cleared and replaced by the user id.  The
external hash checker (`werkzeug.check_password_hash`) is a function
parameter.  Returns the new session and the flashed error, if any. -/
def login (users : List User) (check_password_hash : String → String → Bool)
    (username password : String) (sess : Option Nat) :
    Option Nat × Option String :=
  match users.find? (fun u => u.username == username) with
  | none => (sess, some "Incorrect username.")
  | some user =>
      if check_password_hash user.password password then (some user.user_id, none)
      else (sess, some "Incorrect password.")

/-- `auth.logout`: `session.clear()`. -/
def logout (_sess : Option Nat) : Option Nat := none

/-- `auth.register` (POST path): reject an empty username or password, then
pre-check the username against the `users` table; the INSERT is guarded by the
store-level UNIQUE constraint, whose `IntegrityError` is caught and surfaced
as the "already registered" message.  The external password hasher is a
function parameter; `next_id` is the store-assigned primary key.  Returns the
new table and the flashed error, if any. -/
def register (users : List User) (generate_password_hash : String → String)
    (next_id : Nat) (username password : String) : List User × Option String :=
  if username = "" then (users, some "Username is required.")
  else if password = "" then (users, some "Password is required.")
  else if (users.find? (fun u => u.username == username)).isSome then
    (users, some "Username already exists. Please choose another one.")
  else if (users.find? (fun u => u.username == username)).isSome then
    (users, some ("User " ++ username ++ " is already registered."))
  else
    (users ++ [⟨next_id, username, generate_password_hash password, "", ""⟩], none)

/-- `blog.edit_profile` (POST path): trim the three fields and update the
current user's row.  Every validation step, including the duplicate-nickname
pre-check, is commented out in the source, so `error` stays `None` and the
UPDATE always runs.  Returns the new table and the flashed error, if any. -/
def edit_profile (users : List User) (g_user_id : Nat)
    (nickname bio contact : String) : List User × Option String :=
  ((users.map fun u =>
      if u.user_id == g_user_id then
        ⟨u.user_id, pyStrip nickname, u.password, pyStrip bio, pyStrip contact⟩
      else u),
   none)

/-- `blog.check_nickname`: trim the nickname; outside length 1..20 it is
unavailable; otherwise it is available exactly when no user other than the
current one holds it as username. -/
def check_nickname (users : List User) (g_user_id : Nat) (raw : String) : Bool :=
  if (pyStrip raw).length < 1 ∨ 20 < (pyStrip raw).length then false
  else
    (users.find?
        (fun u => u.username == pyStrip raw && u.user_id != g_user_id)).isNone

/-- Demo hash function for concrete witnesses: prepends "h". -/
def demo_hash (password : String) : String := "h" ++ password

/-- Demo hash checker matching `demo_hash`. -/
def demo_check (hash password : String) : Bool := hash == "h" ++ password

/-- Demo user table used by concrete witnesses: alice with password "pw". -/
def demo_users : List User := [⟨1, "alice", "hpw", "", ""⟩]

/-- An image as the code manipulates it: a decoded source with a PIL mode
string and pixel dimensions, or the result of the two operations the code
applies — `convert("RGB")` and `crop(box)`.  The external codec is modelled
freely: what matters to the claims is which operations were applied. -/
inductive Img where
  | src (mode : String) (width height : Nat)
  | convertRGB (img : Img)
  | cropBox (img : Img) (left upper right lower : Int)
deriving Repr, DecidableEq

/-- PIL mode of an image: `convert("RGB")` yields mode "RGB"; cropping
preserves the mode. -/
def Img.mode : Img → String
  | .src m _ _ => m
  | .convertRGB _ => "RGB"
  | .cropBox i _ _ _ _ => i.mode

/-- `auth.img_crop`: `img.crop((x, y, x + width, y + height))`. -/
def img_crop (img : Img) (x y width height : Int) : Img :=
  Img.cropBox img x y (x + width) (y + height)

/-- The avatars directory: an association list from filename to stored image. -/
abbrev Fs := List (String × Img)

/-- Read the file stored under `name`, if any. -/
def fsGet (fs : Fs) (name : String) : Option Img :=
  (fs.find? (fun p => p.1 == name)).map (fun p => p.2)

/-- `os.path.exists` on the avatars directory. -/
def fsExists (fs : Fs) (name : String) : Bool :=
  (fs.find? (fun p => p.1 == name)).isSome

/-- `os.remove`: drop the file stored under `name`. -/
def fsRemove (fs : Fs) (name : String) : Fs :=
  fs.filter (fun p => p.1 != name)

/-- `img.save(path)`: store `img` under `name`, replacing that file only. -/
def fsWrite (fs : Fs) (name : String) (img : Img) : Fs :=
  fs.filter (fun p => p.1 != name) ++ [(name, img)]

/-- `werkzeug.utils.secure_filename`, an external sanitizer, modelled as the
identity: the claims only exercise it on already-safe filenames, where it is
the identity. -/
def secure_filename (filename : String) : String := filename

/-- Extension part of Python `os.path.splitext`: the suffix from the last dot,
except that the leading dots of the name never start an extension. -/
def splitextExtAux : List Char → Option (List Char)
  | [] => none
  | c :: cs =>
      match splitextExtAux cs with
      | some e => some e
      | none => if c = '.' then some (c :: cs) else none

/-- `os.path.splitext(filename)[1]`. -/
def splitext_ext (s : String) : String :=
  let cs := s.data
  let lead := (cs.takeWhile (fun c => c = '.')).length
  match splitextExtAux (cs.drop lead) with
  | some e => String.mk e
  | none => ""

/-- The allowed avatar extensions as checked by `upload_avatar`
(`['.jpg', '.jpeg', '.png']`). -/
def ALLOWED_UPLOAD_EXTS : List String := [".jpg", ".jpeg", ".png"]

/-- JSON payload returned by the avatar endpoints. -/
structure JsonResp where
  success : Bool
  message : String
  avatar_url : Option String
deriving Repr, DecidableEq

/-- An upload request as `upload_avatar` observes it: whether `avatar` is in
`request.files`, the submitted filename, the declared `content_length`, and
the decoded image (`none` models `Image.open` raising). -/
structure UploadRequest where
  has_avatar : Bool
  filename : String
  content_length : Nat
  image : Option Img
deriving Repr, DecidableEq

/-- `auth.upload_avatar`: reject a missing or unnamed file, an extension
outside the allowed set (checked case-insensitively via `lower()`), or a
declared size over 2 MiB; otherwise decode, convert RGBA/P to RGB when the
target extension is exactly `.jpg`, and save under
`str(user_id) + file_ext`, replacing that file only.  A decode failure is
caught and reported.  Returns the new directory state and the JSON payload. -/
def upload_avatar (fs : Fs) (g_user_id : Nat) (req : UploadRequest) :
    Fs × JsonResp :=
  if req.has_avatar = false then (fs, ⟨false, "未选择图片文件", none⟩)
  else if req.filename = "" then (fs, ⟨false, "请选择要上传的头像图片", none⟩)
  else
    let file_ext := splitext_ext (pyLower (secure_filename req.filename))
    if file_ext ∉ ALLOWED_UPLOAD_EXTS then
      (fs, ⟨false, "仅支持JPG/PNG格式的图片", none⟩)
    else if 2 * 1024 * 1024 < req.content_length then
      (fs, ⟨false, "文件大小不能超过2MB", none⟩)
    else
      let save_filename := toString g_user_id ++ file_ext
      match req.image with
      | none => (fs, ⟨false, "上传失败", none⟩)
      | some img =>
          let img :=
            if img.mode = "RGBA" ∨ img.mode = "P" then
              (if file_ext = ".jpg" then Img.convertRGB img else img)
            else img
          (fsWrite fs save_filename img,
           ⟨true, "头像上传成功", some ("avatars/" ++ save_filename)⟩)

/-- First stored avatar file for the user, searching the extensions in the
source's priority order. -/
def findAvatarIn (exts : List String) (fs : Fs) (g_user_id : Nat) :
    Option (String × Img) :=
  match exts with
  | [] => none
  | e :: rest =>
      let temp_path := toString g_user_id ++ e
      match fsGet fs temp_path with
      | some img => some (temp_path, img)
      | none => findAvatarIn rest fs g_user_id

/-- `auth.crop_avatar`: locate the stored avatar searching `.png`, `.jpg`,
`.jpeg` in that order; report failure when none exists; otherwise crop to
`(x, y, x + width, y + height)` — no bounds validation — and overwrite the
file in place. -/
def crop_avatar (fs : Fs) (g_user_id : Nat) (x y width height : Int) :
    Fs × JsonResp :=
  match findAvatarIn [".png", ".jpg", ".jpeg"] fs g_user_id with
  | none => (fs, ⟨false, "未找到待裁剪的头像文件", none⟩)
  | some (avatar_path, img) =>
      (fsWrite fs avatar_path (Img.cropBox img x y (x + width) (y + height)),
       ⟨true, "头像裁剪成功", none⟩)

/-- `auth.reset_avatar`: for each of `.png`, `.jpg`, `.jpeg`, remove the
user's file of that extension when it exists. -/
def reset_avatar (fs : Fs) (g_user_id : Nat) : Fs :=
  [".png", ".jpg", ".jpeg"].foldl
    (fun acc e =>
      let filepath := toString g_user_id ++ e
      if fsExists acc filepath then fsRemove acc filepath else acc)
    fs

/-- Demo RGB image used by concrete witnesses. -/
def demo_img : Img := .src "RGB" 8 8

/-- Demo image with an alpha channel used by concrete witnesses. -/
def demo_rgba : Img := .src "RGBA" 10 10

/-- C1: the ownership check signals NotFound when no post row matches the id,
Forbidden when ownership is required and the current user is not the author,
and returns the row otherwise; consequently update and delete by a non-author
yield Forbidden and change nothing, while the author gets the row back. -/
theorem C1_get_post_ownership (posts : List Post) (id g_user_id : Nat)
    (check_author : Bool) (title body : String) :
    ((∀ p ∈ posts, p.id ≠ id) → get_post posts id g_user_id check_author = .notFound)
    ∧ (∀ p, posts.find? (fun q => q.id == id) = some p →
        (p.author_id ≠ g_user_id → get_post posts id g_user_id true = .forbidden)
        ∧ (p.author_id = g_user_id → get_post posts id g_user_id true = .ok p)
        ∧ get_post posts id g_user_id false = .ok p)
    ∧ (∀ p, posts.find? (fun q => q.id == id) = some p → p.author_id ≠ g_user_id →
        update_post posts id g_user_id title body = (posts, .forbidden)
        ∧ delete_post posts id g_user_id = (posts, .forbidden))
    ∧ (∀ p, posts.find? (fun q => q.id == id) = some p → p.author_id = g_user_id →
        (update_post posts id g_user_id title body).2 = .ok p
        ∧ (delete_post posts id g_user_id).2 = .ok p) := by
  refine ⟨?_, ?_, ?_, ?_⟩
  · intro h
    have hf : posts.find? (fun q => q.id == id) = none := by
      rw [List.find?_eq_none]
      intro p hp
      simpa using h p hp
    simp [get_post, hf]
  · intro p hf
    refine ⟨?_, ?_, ?_⟩
    · intro hne
      simp [get_post, hf, hne]
    · intro he
      simp [get_post, hf, he]
    · simp [get_post, hf]
  · intro p hf hne
    have hg : get_post posts id g_user_id true = .forbidden := by
      simp [get_post, hf, hne]
    constructor
    · simp [update_post, hg]
    · simp [delete_post, hg]
  · intro p hf he
    have hg : get_post posts id g_user_id true = .ok p := by
      simp [get_post, hf, he]
    constructor
    · by_cases ht : title = "" <;> simp [update_post, hg, ht]
    · simp [delete_post, hg]

/-- Witness for C1 at the demo table: author id 10, stranger id 20, missing id 99. -/
theorem C1_get_post_ownership_witness :
    get_post demo_posts 99 10 true = .notFound
    ∧ get_post demo_posts 1 20 true = .forbidden
    ∧ get_post demo_posts 1 10 true = .ok ⟨1, "Hi", "there", 10, 0⟩
    ∧ delete_post demo_posts 1 20 = (demo_posts, .forbidden)
    ∧ (delete_post demo_posts 1 10).2 = .ok ⟨1, "Hi", "there", 10, 0⟩ := by
  have h99 := C1_get_post_ownership demo_posts 99 10 true "t" "b"
  have h1 := C1_get_post_ownership demo_posts 1 20 true "t" "b"
  have h2 := C1_get_post_ownership demo_posts 1 10 true "t" "b"
  refine ⟨h99.1 (by decide), ?_, ?_, ?_, ?_⟩
  · exact ((h1.2.1 ⟨1, "Hi", "there", 10, 0⟩ (by decide)).1 (by decide))
  · exact ((h2.2.1 ⟨1, "Hi", "there", 10, 0⟩ (by decide)).2.1 (by decide))
  · exact ((h1.2.2.1 ⟨1, "Hi", "there", 10, 0⟩ (by decide)) (by decide)).2
  · exact ((h2.2.2.2 ⟨1, "Hi", "there", 10, 0⟩ (by decide)) (by decide)).2

/-- C2 as stated is false: the duplicate pre-check on the profile-edit path is
commented out in the source, so register(alice), register(bob), then bob
editing his nickname to "alice" leaves two rows holding username "alice". -/
theorem C2_counterexample_edit_profile_duplicate :
    ¬ (((edit_profile
          (register (register [] demo_hash 1 "alice" "pw1").1 demo_hash 2
            "bob" "pw2").1
          2 "alice" "" "").1.map User.username).Nodup) := by decide

/-- C2 amended: only the registration path enforces username uniqueness — a
taken username is rejected by the pre-check (with the store constraint
surfacing as the "already registered" message), and registration preserves
pairwise-distinct usernames; the edit_profile path performs no duplicate
check at all (it never reports an error), so duplicates can arise there. -/
theorem C2_register_unique_edit_unchecked (users : List User)
    (generate_password_hash : String → String) (next_id : Nat)
    (username password : String) :
    (username ≠ "" → password ≠ "" → (∃ u ∈ users, u.username = username) →
        register users generate_password_hash next_id username password
          = (users, some "Username already exists. Please choose another one."))
    ∧ ((users.map User.username).Nodup →
        ((register users generate_password_hash next_id username
            password).1.map User.username).Nodup)
    ∧ (∀ g_user_id nickname bio contact,
        (edit_profile users g_user_id nickname bio contact).2 = none) := by
  refine ⟨?_, ?_, ?_⟩
  · rintro hu hp ⟨u, hm, he⟩
    have hs : (users.find? (fun v => v.username == username)).isSome := by
      rw [List.find?_isSome]
      exact ⟨u, hm, by simp [he]⟩
    simp [register, hu, hp, hs]
  · intro hnd
    unfold register
    split_ifs with h1 h2 h3
    · exact hnd
    · exact hnd
    · exact hnd
    · have hnotin : username ∉ users.map User.username := by
        intro hmem
        apply h3
        rw [List.find?_isSome]
        obtain ⟨u, hu, hequ⟩ := List.mem_map.mp hmem
        exact ⟨u, hu, by simp [hequ]⟩
      simp [List.nodup_append, hnd, hnotin]
  · intro g_user_id nickname bio contact
    simp [edit_profile]

/-- Witness for C2: re-registering the taken username "alice" is rejected with
the "already exists" message and leaves the table unchanged. -/
theorem C2_register_unique_edit_unchecked_witness :
    register demo_users demo_hash 2 "alice" "pw2"
      = (demo_users, some "Username already exists. Please choose another one.") := by
  exact (C2_register_unique_edit_unchecked demo_users demo_hash 2 "alice" "pw2").1
    (by decide) (by decide) ⟨⟨1, "alice", "hpw", "", ""⟩, by decide, by decide⟩

/-- C3 as stated is false: a failed login leaves the session untouched — after
alice enters a wrong password with user id 1 in the session, the session still
holds user id 1 and the resolver still resolves to alice, not to anonymous. -/
theorem C3_counterexample_failed_login_keeps_session :
    (login demo_users demo_check "alice" "bad" (some 1)).2
        = some "Incorrect password."
    ∧ (login demo_users demo_check "alice" "bad" (some 1)).1 = some 1
    ∧ load_logged_in_user demo_users
        (login demo_users demo_check "alice" "bad" (some 1)).1
      = some ⟨1, "alice", "hpw", "", ""⟩ := by decide

/-- C3 amended: the session is cleared on logout (after which the resolver
yields anonymous), and it is cleared-and-replaced only on successful login; a
failed login attempt (unknown username or wrong password) leaves the session
exactly as it was. -/
theorem C3_session_cleared_only_on_logout (users : List User)
    (check_password_hash : String → String → Bool)
    (username password : String) (sess : Option Nat) :
    ((login users check_password_hash username password sess).2.isSome = true →
        (login users check_password_hash username password sess).1 = sess)
    ∧ logout sess = none
    ∧ load_logged_in_user users (logout sess) = none := by
  refine ⟨?_, rfl, rfl⟩
  intro h
  cases hf : users.find? (fun u => u.username == username) with
  | none => simp [login, hf]
  | some user =>
      by_cases hc : check_password_hash user.password password
      · simp [login, hf, hc] at h
      · simp [login, hf, hc]

/-- Witness for C3 amended: alice fails the password check, the session keeps
user id 1; logout clears it. -/
theorem C3_session_cleared_only_on_logout_witness :
    (login demo_users demo_check "alice" "bad" (some 1)).1 = some 1
    ∧ logout (some 1) = none := by
  have h := C3_session_cleared_only_on_logout demo_users demo_check "alice"
    "bad" (some 1)
  exact ⟨h.1 (by decide), h.2.1⟩

/-- C9 as stated is false: the two failure causes produce different observable
messages — unknown username flashes "Incorrect username." while a wrong
password for an existing user flashes "Incorrect password.". -/
theorem C9_counterexample_distinct_messages :
    (login demo_users demo_check "bob" "pw" none).2 = some "Incorrect username."
    ∧ (login demo_users demo_check "alice" "bad" none).2
        = some "Incorrect password."
    ∧ (login demo_users demo_check "bob" "pw" none).2
        ≠ (login demo_users demo_check "alice" "bad" none).2 := by decide

/-- C9 amended: the failed-login message is cause-specific — "Incorrect
username." exactly when the username is unknown, "Incorrect password."
exactly when the username exists but the hash check fails — so the message
reveals which of the two was wrong. -/
theorem C9_login_message_reveals_cause (users : List User)
    (check_password_hash : String → String → Bool)
    (username password : String) (sess : Option Nat) :
    (users.find? (fun u => u.username == username) = none →
        (login users check_password_hash username password sess).2
          = some "Incorrect username.")
    ∧ (∀ user, users.find? (fun u => u.username == username) = some user →
        check_password_hash user.password password = false →
        (login users check_password_hash username password sess).2
          = some "Incorrect password.") := by
  constructor
  · intro hf
    simp [login, hf]
  · intro user hf hc
    simp [login, hf, hc]

/-- Witness for C9 amended at the demo table: unknown user "bob" and wrong
password for "alice". -/
theorem C9_login_message_reveals_cause_witness :
    (login demo_users demo_check "bob" "pw" none).2 = some "Incorrect username."
    ∧ (login demo_users demo_check "alice" "bad" none).2
        = some "Incorrect password." := by
  have h1 := C9_login_message_reveals_cause demo_users demo_check "bob" "pw" none
  have h2 := C9_login_message_reveals_cause demo_users demo_check "alice" "bad" none
  exact ⟨h1.1 (by decide),
    h2.2 ⟨1, "alice", "hpw", "", ""⟩ (by decide) (by decide)⟩

/-- C10: the availability probe answers true exactly when the trimmed nickname
has length 1..20 and no user other than the current one holds it as username
(so a user probing their own current username is told it is available). -/
theorem C10_check_nickname_iff (users : List User) (g_user_id : Nat)
    (raw : String) :
    check_nickname users g_user_id raw = true ↔
      (1 ≤ (pyStrip raw).length ∧ (pyStrip raw).length ≤ 20
       ∧ ∀ u ∈ users, u.username = pyStrip raw → u.user_id = g_user_id) := by
  unfold check_nickname
  by_cases hlen : (pyStrip raw).length < 1 ∨ 20 < (pyStrip raw).length
  · simp only [hlen, if_true]
    constructor
    · intro h
      exact absurd h (by simp)
    · rintro ⟨h1, h2, -⟩
      rcases hlen with h | h <;> omega
  · simp only [hlen, if_false]
    push_neg at hlen
    rw [Option.isNone_iff_eq_none, List.find?_eq_none]
    constructor
    · intro hforall
      refine ⟨hlen.1, hlen.2, ?_⟩
      intro u hu hue
      by_contra hne
      exact hforall u hu (by simp [hue, hne])
    · rintro ⟨-, -, h3⟩ u hu
      simp only [Bool.and_eq_true, beq_iff_eq, bne_iff_ne, ne_eq, not_and]
      intro hue hne
      exact hne (h3 u hu hue)

/-- C4: an upload whose file is missing or unnamed, whose lowercased extension
is outside the allowed set, or whose declared size exceeds 2 MiB, is rejected
with a failure payload and leaves the avatars directory untouched. -/
theorem C4_upload_rejects_invalid (fs : Fs) (g_user_id : Nat)
    (req : UploadRequest) :
    (req.has_avatar = false ∨ req.filename = ""
      ∨ splitext_ext (pyLower (secure_filename req.filename)) ∉ ALLOWED_UPLOAD_EXTS
      ∨ 2 * 1024 * 1024 < req.content_length) →
    (upload_avatar fs g_user_id req).1 = fs
    ∧ (upload_avatar fs g_user_id req).2.success = false := by
  intro h
  by_cases h1 : req.has_avatar = false
  · simp [upload_avatar, h1]
  · by_cases h2 : req.filename = ""
    · simp [upload_avatar, h1, h2]
    · by_cases h3 :
        splitext_ext (pyLower (secure_filename req.filename)) ∉ ALLOWED_UPLOAD_EXTS
      · simp [upload_avatar, h1, h2, h3]
      · by_cases h4 : 2 * 1024 * 1024 < req.content_length
        · simp [upload_avatar, h1, h2, h3, h4]
        · rcases h with h | h | h | h
          · exact absurd h h1
          · exact absurd h h2
          · exact absurd h h3
          · exact absurd h h4

/-- Witness for C4: a 3 MiB PNG and a small GIF are both rejected on an empty
directory, which stays empty. -/
theorem C4_upload_rejects_invalid_witness :
    (upload_avatar [] 1 ⟨true, "big.png", 3 * 1024 * 1024, some demo_img⟩).1 = []
    ∧ (upload_avatar [] 1
        ⟨true, "big.png", 3 * 1024 * 1024, some demo_img⟩).2.success = false
    ∧ (upload_avatar [] 1 ⟨true, "anim.gif", 100, some demo_img⟩).1 = []
    ∧ (upload_avatar [] 1 ⟨true, "anim.gif", 100, some demo_img⟩).2.success
        = false := by
  have hbig := C4_upload_rejects_invalid [] 1
    ⟨true, "big.png", 3 * 1024 * 1024, some demo_img⟩ (by decide)
  have hgif := C4_upload_rejects_invalid [] 1
    ⟨true, "anim.gif", 100, some demo_img⟩ (by decide)
  exact ⟨hbig.1, hbig.2, hgif.1, hgif.2⟩

/-- C5 fails on the code: a successful upload only writes (and replaces) the
file of the newly uploaded extension — it never deletes the user's files of
the other allowed extensions.  User 1 has avatar `1.jpg`; uploading `new.png`
succeeds, writes `1.png`, and leaves `1.jpg` orphaned, so two avatar files
exist for the user. -/
theorem C5_upload_orphans_legacy_extension :
    (upload_avatar [("1.jpg", demo_img)] 1
        ⟨true, "new.png", 100, some demo_img⟩).2.success = true
    ∧ fsGet (upload_avatar [("1.jpg", demo_img)] 1
        ⟨true, "new.png", 100, some demo_img⟩).1 "1.jpg" = some demo_img
    ∧ fsGet (upload_avatar [("1.jpg", demo_img)] 1
        ⟨true, "new.png", 100, some demo_img⟩).1 "1.png" = some demo_img := by
  decide

/-- C6 fails on the code: the RGB conversion guard tests `file_ext == '.jpg'`
only, so an RGBA image uploaded with extension `.jpeg` (a JPEG target) is
stored without conversion, while the same image uploaded as `.jpg` is
converted. -/
theorem C6_jpeg_extension_skips_rgb_conversion :
    fsGet (upload_avatar [] 1 ⟨true, "a.jpeg", 100, some demo_rgba⟩).1 "1.jpeg"
        = some demo_rgba
    ∧ Img.mode demo_rgba = "RGBA"
    ∧ fsGet (upload_avatar [] 1 ⟨true, "a.jpg", 100, some demo_rgba⟩).1 "1.jpg"
        = some (Img.convertRGB demo_rgba) := by
  decide

/-- C7: crop searches the stored file as `.png`, then `.jpg`, then `.jpeg`;
with no stored file it reports failure and leaves the directory untouched;
otherwise it overwrites the found file in place with the crop of the given
rectangle, with no bounds validation on x, y, width, height. -/
theorem C7_crop_avatar_priority_and_not_found (fs : Fs) (g_user_id : Nat)
    (x y width height : Int) :
    (fsGet fs (toString g_user_id ++ ".png") = none →
      fsGet fs (toString g_user_id ++ ".jpg") = none →
      fsGet fs (toString g_user_id ++ ".jpeg") = none →
        crop_avatar fs g_user_id x y width height
          = (fs, ⟨false, "未找到待裁剪的头像文件", none⟩))
    ∧ (∀ img, fsGet fs (toString g_user_id ++ ".png") = some img →
        crop_avatar fs g_user_id x y width height
          = (fsWrite fs (toString g_user_id ++ ".png")
              (Img.cropBox img x y (x + width) (y + height)),
             ⟨true, "头像裁剪成功", none⟩))
    ∧ (∀ img, fsGet fs (toString g_user_id ++ ".png") = none →
        fsGet fs (toString g_user_id ++ ".jpg") = some img →
        crop_avatar fs g_user_id x y width height
          = (fsWrite fs (toString g_user_id ++ ".jpg")
              (Img.cropBox img x y (x + width) (y + height)),
             ⟨true, "头像裁剪成功", none⟩))
    ∧ (∀ img, fsGet fs (toString g_user_id ++ ".png") = none →
        fsGet fs (toString g_user_id ++ ".jpg") = none →
        fsGet fs (toString g_user_id ++ ".jpeg") = some img →
        crop_avatar fs g_user_id x y width height
          = (fsWrite fs (toString g_user_id ++ ".jpeg")
              (Img.cropBox img x y (x + width) (y + height)),
             ⟨true, "头像裁剪成功", none⟩)) := by
  refine ⟨?_, ?_, ?_, ?_⟩
  · intro h1 h2 h3
    simp [crop_avatar, findAvatarIn, h1, h2, h3]
  · intro img h1
    simp [crop_avatar, findAvatarIn, h1]
  · intro img h1 h2
    simp [crop_avatar, findAvatarIn, h1, h2]
  · intro img h1 h2 h3
    simp [crop_avatar, findAvatarIn, h1, h2, h3]

/-- Witness for C7: with `1.png` and `1.jpg` both stored, crop picks `1.png`;
on an empty directory it reports failure and changes nothing. -/
theorem C7_crop_avatar_priority_and_not_found_witness :
    crop_avatar [("1.png", demo_img), ("1.jpg", demo_rgba)] 1 0 0 5 5
      = (fsWrite [("1.png", demo_img), ("1.jpg", demo_rgba)] "1.png"
          (Img.cropBox demo_img 0 0 5 5),
         ⟨true, "头像裁剪成功", none⟩)
    ∧ crop_avatar [] 1 0 0 5 5 = ([], ⟨false, "未找到待裁剪的头像文件", none⟩) := by
  have h1 := C7_crop_avatar_priority_and_not_found
    [("1.png", demo_img), ("1.jpg", demo_rgba)] 1 0 0 5 5
  have h2 := C7_crop_avatar_priority_and_not_found [] 1 0 0 5 5
  constructor
  · have := h1.2.1 demo_img (by decide)
    simpa using this
  · exact h2.1 (by decide) (by decide) (by decide)

/-- Removing a file that does not exist changes nothing. -/
theorem fsRemove_of_not_exists (fs : Fs) (name : String)
    (h : fsExists fs name = false) : fsRemove fs name = fs := by
  unfold fsExists at h
  have hn : fs.find? (fun p => p.1 == name) = none := by
    cases hf : fs.find? (fun p => p.1 == name) with
    | none => rfl
    | some v => rw [hf] at h; simp at h
  rw [List.find?_eq_none] at hn
  unfold fsRemove
  apply List.filter_eq_self.mpr
  intro p hp
  have := hn p hp
  simpa using this

/-- The guarded delete step of `reset_avatar` equals an unconditional remove. -/
theorem deleteStep_eq_remove (fs : Fs) (name : String) :
    (if fsExists fs name then fsRemove fs name else fs) = fsRemove fs name := by
  by_cases h : fsExists fs name
  · simp [h]
  · have hf : fsExists fs name = false := by simpa using h
    simp [hf, fsRemove_of_not_exists fs name hf]

/-- After removing `name`, reading `name` yields nothing. -/
theorem fsGet_remove_self (fs : Fs) (name : String) :
    fsGet (fsRemove fs name) name = none := by
  have h : (fs.filter (fun p => p.1 != name)).find? (fun p => p.1 == name)
      = none := by
    rw [List.find?_eq_none]
    intro p hp
    have h2 := (List.mem_filter.mp hp).2
    simp only [bne_iff_ne, ne_eq] at h2
    simp [h2]
  simp [fsGet, fsRemove, h]

/-- Removing one file never makes another appear. -/
theorem fsGet_remove_none (fs : Fs) (name other : String)
    (h : fsGet fs name = none) : fsGet (fsRemove fs other) name = none := by
  unfold fsGet at h
  rw [Option.map_eq_none'] at h
  have hsub : (fs.filter (fun p => p.1 != other)).find? (fun p => p.1 == name)
      = none := by
    rw [List.find?_eq_none] at h ⊢
    intro p hp
    exact h p (List.mem_filter.mp hp).1
  simp [fsGet, fsRemove, hsub]

/-- A file that reads as absent does not exist. -/
theorem fsExists_eq_false_of_get_none (fs : Fs) (name : String)
    (h : fsGet fs name = none) : fsExists fs name = false := by
  unfold fsGet at h
  rw [Option.map_eq_none'] at h
  simp [fsExists, h]

/-- `reset_avatar` in remove normal form. -/
theorem reset_avatar_eq (fs : Fs) (g_user_id : Nat) :
    reset_avatar fs g_user_id =
      fsRemove (fsRemove (fsRemove fs (toString g_user_id ++ ".png"))
          (toString g_user_id ++ ".jpg"))
        (toString g_user_id ++ ".jpeg") := by
  simp only [reset_avatar, List.foldl_cons, List.foldl_nil]
  rw [deleteStep_eq_remove, deleteStep_eq_remove, deleteStep_eq_remove]

/-- C8: reset deletes the user's avatar file for every allowed extension and
is idempotent — absence is not an error (the delete step is guarded by an
existence check), no avatar file remains afterwards, and resetting twice
equals resetting once. -/
theorem C8_reset_avatar_idempotent (fs : Fs) (g_user_id : Nat) :
    fsGet (reset_avatar fs g_user_id) (toString g_user_id ++ ".png") = none
    ∧ fsGet (reset_avatar fs g_user_id) (toString g_user_id ++ ".jpg") = none
    ∧ fsGet (reset_avatar fs g_user_id) (toString g_user_id ++ ".jpeg") = none
    ∧ reset_avatar (reset_avatar fs g_user_id) g_user_id
        = reset_avatar fs g_user_id := by
  have hpng : fsGet (reset_avatar fs g_user_id) (toString g_user_id ++ ".png")
      = none := by
    rw [reset_avatar_eq]
    exact fsGet_remove_none _ _ _ (fsGet_remove_none _ _ _ (fsGet_remove_self _ _))
  have hjpg : fsGet (reset_avatar fs g_user_id) (toString g_user_id ++ ".jpg")
      = none := by
    rw [reset_avatar_eq]
    exact fsGet_remove_none _ _ _ (fsGet_remove_self _ _)
  have hjpeg : fsGet (reset_avatar fs g_user_id) (toString g_user_id ++ ".jpeg")
      = none := by
    rw [reset_avatar_eq]
    exact fsGet_remove_self _ _
  refine ⟨hpng, hjpg, hjpeg, ?_⟩
  have e1 := fsExists_eq_false_of_get_none _ _ hpng
  have e2 := fsExists_eq_false_of_get_none _ _ hjpg
  have e3 := fsExists_eq_false_of_get_none _ _ hjpeg
  rw [reset_avatar_eq (reset_avatar fs g_user_id) g_user_id]
  rw [fsRemove_of_not_exists _ _ e1]
  rw [fsRemove_of_not_exists _ _ e2]
  rw [fsRemove_of_not_exists _ _ e3]

/-- Witness for C8 on a directory holding `1.png`: reset removes it and a
second reset changes nothing. -/
theorem C8_reset_avatar_idempotent_witness :
    fsGet (reset_avatar [("1.png", demo_img)] 1) (toString 1 ++ ".png") = none
    ∧ reset_avatar (reset_avatar [("1.png", demo_img)] 1) 1
        = reset_avatar [("1.png", demo_img)] 1 := by
  have h := C8_reset_avatar_idempotent [("1.png", demo_img)] 1
  exact ⟨h.1, h.2.2.2⟩

/-- Witness for C10: alice probing her own current username is told it is
available. -/
theorem C10_check_nickname_iff_witness :
    check_nickname demo_users 1 "alice" = true := by
  exact (C10_check_nickname_iff demo_users 1 "alice").mpr
    ⟨by decide, by decide, by decide⟩
